import Mathlib

/-!
Verification development for the article-summary autocrawler.

The definitions below are shallow embeddings of the Python source:
`process_articles_improved.py` (quality scoring, content-hash
deduplication, the LLM annotation call and per-article processing),
`main.py` (the three-backend fallback orchestrator), and the two
Playwright extractors (`playwright_scraper.py` and
`crawlers/playwright_crawler.py`, date resolution and normalization).
-/

set_option maxRecDepth 10000

namespace AutoCrawler

/-! ## String helpers modelling Python primitives -/

/-- Models Python's list/str containment test at the level of char
lists: `leadsChars needle hay` holds when `needle` heads `hay`. -/
def leadsChars : List Char → List Char → Bool
  | [], _ => true
  | _ :: _, [] => false
  | a :: as, b :: bs => a == b && leadsChars as bs

/-- Substring occurrence on char lists: `occursInChars needle hay`
models Python `needle in hay`. -/
def occursInChars (needle : List Char) : List Char → Bool
  | [] => needle.isEmpty
  | c :: rest =>
    -- check at this position, else shift one char to the right
    leadsChars needle (c :: rest) || occursInChars needle rest

/-- Models Python `needle in hay` for strings (substring containment). -/
def strOccursIn (needle hay : String) : Bool :=
  occursInChars needle.data hay.data

/-- Models Python `s.lower()` (ASCII case mapping, as in the keyword
vocabulary this program compares against). -/
def pyLower (s : String) : String :=
  ⟨s.data.map Char.toLower⟩

def charsStrip (l : List Char) : List Char :=
  ((l.dropWhile Char.isWhitespace).reverse.dropWhile Char.isWhitespace).reverse

/-- Models Python `s.strip()` (drop leading and trailing whitespace). -/
def pyStrip (s : String) : String :=
  ⟨charsStrip s.data⟩

/-- Splits at every occurrence of `sep`, keeping empty groups — Python
`s.split(sep)` for a one-character separator. -/
def charsSplitOnChar (sep : Char) : List Char → List (List Char)
  | [] => [[]]
  | c :: rest =>
    match charsSplitOnChar sep rest with
    | [] => if c == sep then [[], []] else [[c]]
    | g :: gs => if c == sep then [] :: g :: gs else (c :: g) :: gs

/-- Models Python `s.split('.')`. -/
def pySplitDot (s : String) : List String :=
  (charsSplitOnChar '.' s.data).map (fun l => (⟨l⟩ : String))

def charsSplitWhitespace : List Char → List (List Char)
  | [] => [[]]
  | c :: rest =>
    match charsSplitWhitespace rest with
    | [] => if c.isWhitespace then [[], []] else [[c]]
    | g :: gs => if c.isWhitespace then [] :: g :: gs else (c :: g) :: gs

/-- Models Python `s.split()` (split on whitespace, dropping empties). -/
def pySplitWS (s : String) : List String :=
  ((charsSplitWhitespace s.data).map (fun l => (⟨l⟩ : String))).filter
    (fun t => !t.isEmpty)

/-! ## Data model

An `Article` models the dict-shaped record the pipeline threads around.
A missing key is modelled as the empty string (Python code reads the
fields with `article.get(k, '')` / truthiness tests throughout), except
`content_hash`, which `deduplicate_articles` adds and which we model as
an `Option` to record key presence.  -/

structure Article where
  date : String := ""
  headline : String := ""
  content : String := ""
  article_url : String := ""
  source_url : String := ""
  content_hash : Option String := none
deriving DecidableEq, Repr

/-- Mirror of the `QualityMetrics` dataclass in `process_articles_improved.py`. -/
structure QualityMetrics where
  content_length : Nat
  sentence_count : Nat
  tech_keyword_count : Nat
  has_date : Bool
  has_url : Bool
  quality_score : Nat
  quality_factors : List String
deriving DecidableEq, Repr

/-! ## Quality scoring (`assess_content_quality`) -/

/-- The fixed `tech_keywords` vocabulary from `assess_content_quality`. -/
def techKeywords : List String :=
  ["semiconductor", "chip", "manufacturing", "technology", "innovation",
   "processor", "silicon", "wafer", "fabrication", "electronics",
   "circuit", "transistor", "integrated", "microprocessor", "AI",
   "artificial intelligence", "machine learning", "quantum", "nanotechnology",
   "gallium", "arsenide", "nitride", "TSMC", "Intel", "AMD", "NVIDIA"]

/-- Models `[s.strip() for s in content.split('.') if s.strip()]`. -/
def sentencesOf (content : String) : List String :=
  ((pySplitDot content).map pyStrip).filter (fun s => !s.isEmpty)

/-- Shallow embedding of `assess_content_quality` from
`process_articles_improved.py`: the running `quality_score` accumulator
and `quality_factors` list are built band by band exactly as in the
source. -/
def assess_content_quality (article : Article) : QualityMetrics :=
  let content := article.content
  let content_length := content.length
  let lenScore : Nat :=
    if content_length ≥ 1000 then 3
    else if content_length ≥ 500 then 2
    else if content_length ≥ 200 then 1
    else 0
  let lenFactor : List String :=
    if content_length ≥ 1000 then ["excellent_length"]
    else if content_length ≥ 500 then ["good_length"]
    else if content_length ≥ 200 then ["adequate_length"]
    else ["insufficient_length"]
  let sentence_count := (sentencesOf content).length
  let sentScore : Nat :=
    if sentence_count > 5 then 2
    else if sentence_count ≥ 3 then 1
    else 0
  let sentFactor : List String :=
    if sentence_count > 5 then ["excellent_structure"]
    else if sentence_count ≥ 3 then ["good_structure"]
    else ["poor_structure"]
  let content_lower := pyLower content
  let tech_keyword_count :=
    (techKeywords.filter (fun k => strOccursIn k content_lower)).length
  let kwScore : Nat :=
    if tech_keyword_count > 4 then 3
    else if tech_keyword_count ≥ 3 then 2
    else if tech_keyword_count ≥ 1 then 1
    else 0
  let kwFactor : List String :=
    if tech_keyword_count > 4 then ["highly_technical"]
    else if tech_keyword_count ≥ 3 then ["technical_content"]
    else if tech_keyword_count ≥ 1 then ["some_technical"]
    else ["non_technical"]
  let has_date := !article.date.isEmpty
  let has_url := !article.article_url.isEmpty
  let metaScore : Nat := (if has_date then 1 else 0) + (if has_url then 1 else 0)
  let metaFactors : List String :=
    (if has_date then ["has_date"] else []) ++ (if has_url then ["has_url"] else [])
  { content_length := content_length
    sentence_count := sentence_count
    tech_keyword_count := tech_keyword_count
    has_date := has_date
    has_url := has_url
    quality_score := lenScore + sentScore + kwScore + metaScore
    quality_factors := lenFactor ++ sentFactor ++ kwFactor ++ metaFactors }

/-! ## Content hash and deduplication -/

/-- Shallow embedding of `calculate_content_hash`: the MD5 digest of the
normalized text is modelled as the normalized text itself (the digest is
a deterministic function of the normalized text, and digest equality is
identified with normalized-text equality). -/
def calculate_content_hash (content : String) : String :=
  let normalized := pyStrip (pyLower content)
  " ".intercalate (pySplitWS normalized)

/-- The loop body of `deduplicate_articles`, with the `seen_hashes` set
made explicit. Records with falsy `content` are skipped outright; a
fresh hash keeps the record (stamping `content_hash` onto it); a hash
already seen drops the record and bumps `duplicate_count`. -/
def deduplicate_articles_aux (seen : List String) :
    List Article → List Article × Nat
  | [] => ([], 0)
  | a :: rest =>
    if a.content = "" then
      deduplicate_articles_aux seen rest
    else
      let h := calculate_content_hash a.content
      if h ∈ seen then
        let r := deduplicate_articles_aux seen rest
        (r.1, r.2 + 1)
      else
        let r := deduplicate_articles_aux (h :: seen) rest
        ({ a with content_hash := some h } :: r.1, r.2)

/-- Shallow embedding of `deduplicate_articles` from
`process_articles_improved.py`: returns `(unique_articles, duplicate_count)`. -/
def deduplicate_articles (articles : List Article) : List Article × Nat :=
  deduplicate_articles_aux [] articles

/-! ## The LLM annotation call (`call_llm`)

`call_llm` performs network I/O; we embed its control flow over an
abstract transport.  `outcomes i` is what the `i`-th `session.post`
would deliver (a transport-level exception or a response body), and
`interpret` stands for lines 323-356 of `process_articles_improved.py`
(JSON decoding of a *non-empty* body, envelope extraction and field
validation), whose three possible outcomes the code distinguishes:
a terminal failure (invalid JSON body: `return None`), a validated
result (`return result`), or an invalid/malformed result (falls through
and the retry loop continues). -/

inductive AttemptOutcome where
  | transportError
  | delivered (body : String)

inductive BodyOutcome where
  | terminalNone
  | valid (sentiment summary relevant : String)
  | invalid

/-- One annotated result `{sentiment, summary, relevant}`. -/
structure LlmResult where
  sentiment : String
  summary : String
  relevant : String
deriving DecidableEq, Repr

/-- The `for attempt in range(max_retries)` loop of `call_llm`.
Returns the result together with the number of attempts actually
consumed.  The empty-body check `raw = response.text.strip(); if not
raw: return None` is the first thing done with a delivered body and
returns immediately. -/
def call_llm_loop (interpret : String → BodyOutcome) (outcomes : Nat → AttemptOutcome) :
    Nat → Nat → Option LlmResult × Nat
  | 0, used => (none, used)
  | remaining + 1, used =>
    match outcomes used with
    | .transportError =>
      -- caught by the `except` clause; backoff sleep, then next attempt
      call_llm_loop interpret outcomes remaining (used + 1)
    | .delivered body =>
      let raw := pyStrip body
      if raw = "" then (none, used + 1)
      else
        match interpret raw with
        | .terminalNone => (none, used + 1)
        | .valid s m r => (some ⟨s, m, r⟩, used + 1)
        | .invalid => call_llm_loop interpret outcomes remaining (used + 1)

/-- Shallow embedding of `call_llm` (default `max_retries = 1` in the
source; kept as a parameter). -/
def call_llm (interpret : String → BodyOutcome) (outcomes : Nat → AttemptOutcome)
    (max_retries : Nat) : Option LlmResult × Nat :=
  call_llm_loop interpret outcomes max_retries 0

/-! ## Per-article processing (`process_single_article`) -/

/-- The processed record written by `process_single_article`.  Fields
added by processing are `Option`-valued so that key presence in the
Python dict is observable; in particular `content = none` models the
`processed_article.pop('content', None)` calls. -/
structure ProcessedArticle where
  date : String
  headline : String
  article_url : String
  source_url : String
  content_hash : Option String
  content : Option String
  quality_score : Option Nat
  quality_factors : Option (List String)
  content_length : Option Nat
  sentence_count : Option Nat
  tech_keyword_count : Option Nat
  sentiment : Option String
  summary : Option String
  relevant : Option String
  processing_status : Option String
deriving DecidableEq, Repr

/-- Shallow embedding of `process_single_article`.  The `llm` argument
stands for `call_llm content api_key model endpoint` (the configuration
is threaded through unchanged in the source).  The returned `Bool`
records whether the LLM call was invoked for this record. -/
def process_single_article (article : Article) (llm : String → Option LlmResult) :
    ProcessedArticle × Bool :=
  let qm := assess_content_quality article
  let base : ProcessedArticle :=
    { date := article.date
      headline := article.headline
      article_url := article.article_url
      source_url := article.source_url
      content_hash := article.content_hash
      content := some article.content
      quality_score := some qm.quality_score
      quality_factors := some qm.quality_factors
      content_length := some qm.content_length
      sentence_count := some qm.sentence_count
      tech_keyword_count := some qm.tech_keyword_count
      sentiment := none
      summary := none
      relevant := none
      processing_status := none }
  if article.content = "" then
    ({ base with
        sentiment := some "中立"
        summary := some "无内容可供分析"
        relevant := some "否"
        processing_status := some "no_content" }, false)
  else if qm.quality_score < 3 then
    ({ base with
        sentiment := some "中立"
        summary := some "文章质量过低，跳过分析"
        relevant := some "否"
        processing_status := some "low_quality"
        content := none }, false)
  else
    match llm article.content with
    | some r =>
      ({ base with
          sentiment := some r.sentiment
          summary := some r.summary
          relevant := some r.relevant
          processing_status := some "success"
          content := none }, true)
    | none =>
      ({ base with
          sentiment := some "中立"
          summary := some "LLM分析失败"
          relevant := some "否"
          processing_status := some "failed"
          content := none }, true)

/-! ## The fallback orchestrator (`main.py`)

The per-source loop of `main()` tries `TrafilaturaCrawler`, then
`HTMLFallbackCrawler`, then `PlaywrightCrawler`.  Each crawler is
modelled as a function from `(url, max_articles)` to `Option (List
Article)`; `none` models the crawler raising an exception (caught by the
surrounding `try`/`except`, which leaves `usable_events` untouched). -/

/-- The usability filter from `main.py`:
`event.get('content') and len(event['content'].strip()) >= 200 and
event.get('headline') and len(event['headline'].strip()) > 0`. -/
def isUsable (e : Article) : Bool :=
  !e.content.isEmpty && (pyStrip e.content).length ≥ 200
    && !e.headline.isEmpty && (pyStrip e.headline).length > 0

inductive BackendTag where
  | trafilatura
  | htmlFallback
  | playwright
deriving DecidableEq, Repr

/-- The three extraction backends as the orchestrator sees them. -/
structure BackendSet where
  traf : String → Nat → Option (List Article)
  htmlF : String → Nat → Option (List Article)
  playw : String → Nat → Option (List Article)

/-- `usable_events` after the trafilatura phase: the crawler is asked
for `n*3` candidates, its output is filtered by `isUsable`, and the
append loop stops once `n` records are collected. -/
def phase1 (B : BackendSet) (url : String) (n : Nat) : List Article :=
  match B.traf url (n * 3) with
  | some evs => (evs.filter isUsable).take n
  | none => []

/-- `usable_events` after the HTML-fallback phase, entered only when
the trafilatura phase left the quota unmet. -/
def phase2 (B : BackendSet) (url : String) (n : Nat) : List Article :=
  let u1 := phase1 B url n
  if u1.length < n then
    match B.htmlF url ((n - u1.length) * 3) with
    | some evs => u1 ++ (evs.filter isUsable).take (n - u1.length)
    | none => u1
  else u1

/-- `usable_events` after the Playwright phase, entered only when the
two previous phases left the quota unmet.  The Playwright crawler is
asked for `n - len(usable_events)` records and applies the usability
filter internally (it receives `filter_func`), so its output is
appended without re-filtering, still stopping at the quota. -/
def phase3 (B : BackendSet) (url : String) (n : Nat) : List Article :=
  let u2 := phase2 B url n
  if u2.length < n then
    match B.playw url (n - u2.length) with
    | some evs => u2 ++ evs.take (n - u2.length)
    | none => u2
  else u2

/-- Which backends the per-source loop invokes, in invocation order:
trafilatura always; the HTML fallback iff trafilatura left the quota
unmet; Playwright iff the quota is still unmet after the HTML fallback. -/
def backendTrace (B : BackendSet) (url : String) (n : Nat) : List BackendTag :=
  BackendTag.trafilatura ::
    ((if (phase1 B url n).length < n then [BackendTag.htmlFallback] else []) ++
     (if (phase2 B url n).length < n then [BackendTag.playwright] else []))

/-- One iteration of the per-source loop of `main()`: the usable records
this source contributes to `all_events` (`all_events.extend(usable_events[:n])`)
together with the backend-invocation trace. -/
def collectForSource (B : BackendSet) (url : String) (n : Nat) :
    List Article × List BackendTag :=
  ((phase3 B url n).take n, backendTrace B url n)

/-- The whole scraping loop over the requested `(url, n)` pairs,
keeping each source's contribution to `all_events` as its own slice. -/
def aggregateSources (B : BackendSet) (sources : List (String × Nat)) :
    List (List Article) :=
  sources.map (fun p => (collectForSource B p.1 p.2).1)

/-! ## Date resolution and normalization (the rendered-page extractors)

`playwright_scraper.py` (`PlaywrightNewsScraper.extract_events`) and
`crawlers/playwright_crawler.py` (`PlaywrightCrawler.extract_articles`,
the one `main.py` invokes) resolve an article's date from a listing-page
hit or a cascade of page selectors.  The scraper normalizes the resolved
raw string through a fixed regex cascade; the crawler uses whatever raw
string the first matching selector yields, unchanged. -/

/-- Full-string test for `^(\d{2})\.(\d{2})\.(\d{4})$`. -/
def isMMDDYYYY : List Char → Bool
  | [m1, m2, '.', d1, d2, '.', y1, y2, y3, y4] =>
    [m1, m2, d1, d2, y1, y2, y3, y4].all Char.isDigit
  | _ => false

/-- Full-string match for `^(\d{2})\.(\d{2})\.(\d{2})$`, returning the
captured digit groups. -/
def matchMMDDYY : List Char → Option (Char × Char × Char × Char × Char × Char)
  | [m1, m2, '.', d1, d2, '.', y1, y2] =>
    if [m1, m2, d1, d2, y1, y2].all Char.isDigit then
      some (m1, m2, d1, d2, y1, y2)
    else none
  | _ => none

/-- Full-string match for `^(\d{4})-(\d{2})-(\d{2})$`, returning the
captured digit groups. -/
def matchISO : List Char → Option (Char × Char × Char × Char × Char × Char × Char × Char)
  | [y1, y2, y3, y4, '-', m1, m2, '-', d1, d2] =>
    if [y1, y2, y3, y4, m1, m2, d1, d2].all Char.isDigit then
      some (y1, y2, y3, y4, m1, m2, d1, d2)
    else none
  | _ => none

/-- The regex cascade of `playwright_scraper.py` lines 90-104 on char
lists: keep an `MM.DD.YYYY` match unchanged, widen `MM.DD.YY` to
`MM.DD.20YY`, rewrite ISO `YYYY-MM-DD` to `MM.DD.YYYY`, and pass any
other string through unchanged. -/
def normalizeDateChars (raw : List Char) : List Char :=
  if isMMDDYYYY raw then raw
  else
    match matchMMDDYY raw with
    | some (m1, m2, d1, d2, y1, y2) => [m1, m2, '.', d1, d2, '.', '2', '0', y1, y2]
    | none =>
      match matchISO raw with
      | some (y1, y2, y3, y4, m1, m2, d1, d2) => [m1, m2, '.', d1, d2, '.', y1, y2, y3, y4]
      | none => raw

/-- The date normalization of `PlaywrightNewsScraper.extract_events`. -/
def normalizeDate (s : String) : String :=
  ⟨normalizeDateChars s.data⟩

/-- The selector cascade of `PlaywrightCrawler.extract_articles` lines
94-111: the candidates are the raw strings each date selector yields (a
missing selector contributes `""`), and the first non-empty one wins. -/
def firstNonEmptyDate : List String → String
  | [] => ""
  | d :: rest => if d.isEmpty then firstNonEmptyDate rest else d

/-- Date resolution in `PlaywrightCrawler.extract_articles`: the
listing-page date if present, else the first non-empty selector hit —
used as-is, with no normalization applied. -/
def crawlerResolveDate (listing : String) (candidates : List String) : String :=
  if listing.isEmpty then firstNonEmptyDate candidates else listing

/-- Date resolution in `PlaywrightNewsScraper.extract_events`: the
listing-page date if present; otherwise the article-page span text, if
non-empty, pushed through the normalization cascade. -/
def scraperResolveDate (listing : String) (spanRaw : String) : String :=
  if listing.isEmpty then
    if spanRaw.isEmpty then "" else normalizeDate spanRaw
  else listing

/-! ## Specification-side band functions (from the spec's wording of the
quality score) and helper lemmas -/

/-- Content-length band as the spec states it (0-3 points). -/
def specLengthBand (L : Nat) : Nat :=
  if L ≥ 1000 then 3 else if L ≥ 500 then 2 else if L ≥ 200 then 1 else 0

/-- Sentence-count band as the spec states it (0-2 points). -/
def specSentenceBand (S : Nat) : Nat :=
  if S > 5 then 2 else if S ≥ 3 then 1 else 0

/-- Technical-keyword band as the spec states it (0-3 points). -/
def specKeywordBand (K : Nat) : Nat :=
  if K > 4 then 3 else if K ≥ 3 then 2 else if K ≥ 1 then 1 else 0

lemma quality_score_eq_bands (a : Article) :
    (assess_content_quality a).quality_score =
      specLengthBand a.content.length +
      specSentenceBand (sentencesOf a.content).length +
      specKeywordBand (techKeywords.filter (fun k => strOccursIn k (pyLower a.content))).length +
      (if a.date.isEmpty then 0 else 1) + (if a.article_url.isEmpty then 0 else 1) := by
  simp only [assess_content_quality, specLengthBand, specSentenceBand, specKeywordBand]
  cases hd : a.date.isEmpty <;> cases hu : a.article_url.isEmpty <;>
    simp only [Bool.not_false, Bool.not_true, if_true, if_false, Bool.false_eq_true,
      Bool.true_eq_false, ite_true, ite_false]

lemma quality_metrics_fields (a : Article) :
    (assess_content_quality a).content_length = a.content.length ∧
    (assess_content_quality a).sentence_count = (sentencesOf a.content).length ∧
    (assess_content_quality a).tech_keyword_count =
      (techKeywords.filter (fun k => strOccursIn k (pyLower a.content))).length ∧
    (assess_content_quality a).has_date = !a.date.isEmpty ∧
    (assess_content_quality a).has_url = !a.article_url.isEmpty := by
  refine ⟨?_, ?_, ?_, ?_, ?_⟩ <;> rfl

lemma specLengthBand_le (L : Nat) : specLengthBand L ≤ 3 := by
  simp only [specLengthBand]; split_ifs <;> omega

lemma specSentenceBand_le (S : Nat) : specSentenceBand S ≤ 2 := by
  simp only [specSentenceBand]; split_ifs <;> omega

lemma specKeywordBand_le (K : Nat) : specKeywordBand K ≤ 3 := by
  simp only [specKeywordBand]; split_ifs <;> omega

/-- C1: the quality score of every article record is exactly the sum of
the content-length band (0-3), the sentence-count band (0-2), the
technical-keyword band (0-3) and metadata completeness (+1 for a date,
+1 for an article_url); it always lies in [0, 10] (it is a `Nat`, so
nonnegative by type); and it is a pure function of the record's content,
date presence and article_url presence — two records agreeing on those
three observations get the same score. -/
theorem c1_quality_score_bands_bounded_pure (a b : Article)
    (hc : a.content = b.content)
    (hd : a.date.isEmpty = b.date.isEmpty)
    (hu : a.article_url.isEmpty = b.article_url.isEmpty) :
    (assess_content_quality a).quality_score =
      specLengthBand (assess_content_quality a).content_length +
      specSentenceBand (assess_content_quality a).sentence_count +
      specKeywordBand (assess_content_quality a).tech_keyword_count +
      (if (assess_content_quality a).has_date then 1 else 0) +
      (if (assess_content_quality a).has_url then 1 else 0) ∧
    (assess_content_quality a).quality_score ≤ 10 ∧
    (assess_content_quality a).quality_score = (assess_content_quality b).quality_score := by
  obtain ⟨hl, hs, hk, hhd, hhu⟩ := quality_metrics_fields a
  refine ⟨?_, ?_, ?_⟩
  · rw [quality_score_eq_bands, hl, hs, hk, hhd, hhu]
    cases hde : a.date.isEmpty <;> cases hue : a.article_url.isEmpty <;> simp
  · rw [quality_score_eq_bands]
    have h1 := specLengthBand_le a.content.length
    have h2 := specSentenceBand_le (sentencesOf a.content).length
    have h3 := specKeywordBand_le
      (techKeywords.filter (fun k => strOccursIn k (pyLower a.content))).length
    split_ifs <;> omega
  · rw [quality_score_eq_bands, quality_score_eq_bands, hc, hd, hu]

/-- Witness for C1 at a concrete pair of records agreeing on content,
date presence and url presence. -/
theorem c1_witness :
    (assess_content_quality
        { content := "chip one. two. three.", date := "01.02.2024", headline := "h1" }).quality_score =
      specLengthBand (assess_content_quality
        { content := "chip one. two. three.", date := "01.02.2024", headline := "h1" }).content_length +
      specSentenceBand (assess_content_quality
        { content := "chip one. two. three.", date := "01.02.2024", headline := "h1" }).sentence_count +
      specKeywordBand (assess_content_quality
        { content := "chip one. two. three.", date := "01.02.2024", headline := "h1" }).tech_keyword_count +
      (if (assess_content_quality
        { content := "chip one. two. three.", date := "01.02.2024", headline := "h1" }).has_date then 1 else 0) +
      (if (assess_content_quality
        { content := "chip one. two. three.", date := "01.02.2024", headline := "h1" }).has_url then 1 else 0) ∧
    (assess_content_quality
        { content := "chip one. two. three.", date := "01.02.2024", headline := "h1" }).quality_score ≤ 10 ∧
    (assess_content_quality
        { content := "chip one. two. three.", date := "01.02.2024", headline := "h1" }).quality_score =
      (assess_content_quality
        { content := "chip one. two. three.", date := "03.04.2025", headline := "h2" }).quality_score :=
  c1_quality_score_bands_bounded_pure
    { content := "chip one. two. three.", date := "01.02.2024", headline := "h1" }
    { content := "chip one. two. three.", date := "03.04.2025", headline := "h2" }
    rfl (by decide) (by decide)

/-! ## Deduplication invariants -/

lemma article_set_hash_self (a : Article) (h : String)
    (ha : a.content_hash = some h) : { a with content_hash := some h } = a := by
  cases a; simp_all

lemma dedup_aux_invariant (l : List Article) : ∀ seen : List String,
    (∀ a ∈ (deduplicate_articles_aux seen l).1,
        a.content ≠ "" ∧ a.content_hash = some (calculate_content_hash a.content) ∧
        calculate_content_hash a.content ∉ seen) ∧
    ((deduplicate_articles_aux seen l).1.map
        (fun a => calculate_content_hash a.content)).Nodup := by
  induction l with
  | nil => intro seen; simp [deduplicate_articles_aux]
  | cons a rest ih =>
    intro seen
    by_cases hc : a.content = ""
    · simpa [deduplicate_articles_aux, hc] using ih seen
    · by_cases hm : calculate_content_hash a.content ∈ seen
      · simpa [deduplicate_articles_aux, hc, hm] using ih seen
      · have heq : (deduplicate_articles_aux seen (a :: rest)).1 =
            { a with content_hash := some (calculate_content_hash a.content) } ::
              (deduplicate_articles_aux (calculate_content_hash a.content :: seen) rest).1 := by
          simp [deduplicate_articles_aux, hc, hm]
        obtain ⟨ih1, ih2⟩ := ih (calculate_content_hash a.content :: seen)
        rw [heq]
        constructor
        · intro b hb
          rcases List.mem_cons.mp hb with hb | hb
          · subst hb
            exact ⟨hc, rfl, hm⟩
          · obtain ⟨hb1, hb2, hb3⟩ := ih1 b hb
            exact ⟨hb1, hb2, fun hmem => hb3 (List.mem_cons_of_mem _ hmem)⟩
        · rw [List.map_cons]
          refine List.nodup_cons.mpr ⟨?_, ih2⟩
          intro hmem
          obtain ⟨b, hb, hfb⟩ := List.mem_map.mp hmem
          obtain ⟨_, _, hb3⟩ := ih1 b hb
          exact hb3 (by rw [hfb]; exact List.mem_cons_self _ _)

lemma dedup_aux_fixed : ∀ (l : List Article) (seen : List String),
    (∀ a ∈ l, a.content ≠ "" ∧ a.content_hash = some (calculate_content_hash a.content) ∧
        calculate_content_hash a.content ∉ seen) →
    (l.map (fun a => calculate_content_hash a.content)).Nodup →
    deduplicate_articles_aux seen l = (l, 0) := by
  intro l
  induction l with
  | nil => intro seen _ _; simp [deduplicate_articles_aux]
  | cons a rest ih =>
    intro seen hl hnd
    obtain ⟨ha1, ha2, ha3⟩ := hl a (List.mem_cons_self a rest)
    rw [List.map_cons] at hnd
    obtain ⟨hnd1, hnd2⟩ := List.nodup_cons.mp hnd
    have hrest : deduplicate_articles_aux
        (calculate_content_hash a.content :: seen) rest = (rest, 0) := by
      apply ih
      · intro b hb
        obtain ⟨hb1, hb2, hb3⟩ := hl b (List.mem_cons_of_mem a hb)
        refine ⟨hb1, hb2, ?_⟩
        intro hmem
        rcases List.mem_cons.mp hmem with h | h
        · exact hnd1 (by rw [← h]; exact List.mem_map_of_mem _ hb)
        · exact hb3 h
      · exact hnd2
    simp [deduplicate_articles_aux, ha1, ha3, hrest, article_set_hash_self a _ ha2]

lemma dedup_aux_count : ∀ (l : List Article) (seen : List String),
    (deduplicate_articles_aux seen l).1.length + (deduplicate_articles_aux seen l).2 =
      (l.filter (fun a => a.content ≠ "")).length := by
  intro l
  induction l with
  | nil => intro seen; simp [deduplicate_articles_aux]
  | cons a rest ih =>
    intro seen
    by_cases hc : a.content = ""
    · simp [deduplicate_articles_aux, hc, ih seen]
    · by_cases hm : calculate_content_hash a.content ∈ seen
      · have h := ih seen
        simp [deduplicate_articles_aux, hc, hm] at h ⊢
        omega
      · have h := ih (calculate_content_hash a.content :: seen)
        simp [deduplicate_articles_aux, hc, hm] at h ⊢
        omega

/-- C2: deduplication is keyed solely on the hash of the normalized
content — on a batch of non-empty-content records every record is either
kept or counted as a duplicate, the kept records carry pairwise distinct
content hashes, and two records with byte-identical non-empty content
but different article_url values collapse to the first record (stamped
with its content hash) with duplicate_count = 1. -/
theorem c2_dedup_hash_keyed (batch : List Article) (a1 a2 : Article)
    (hall : ∀ a ∈ batch, a.content ≠ "")
    (hc : a2.content = a1.content)
    (h1 : a1.content ≠ "")
    (_hu : a1.article_url ≠ a2.article_url) :
    ((deduplicate_articles batch).1.length + (deduplicate_articles batch).2 =
      batch.length) ∧
    ((deduplicate_articles batch).1.map
      (fun a => calculate_content_hash a.content)).Nodup ∧
    deduplicate_articles [a1, a2] =
      ([{ a1 with content_hash := some (calculate_content_hash a1.content) }], 1) := by
  refine ⟨?_, (dedup_aux_invariant batch []).2, ?_⟩
  · have h := dedup_aux_count batch []
    have hf : batch.filter (fun a => a.content ≠ "") = batch :=
      List.filter_eq_self.mpr (fun a ha => by simpa using hall a ha)
    rw [hf] at h
    exact h
  · have h2 : a2.content ≠ "" := by rw [hc]; exact h1
    simp [deduplicate_articles, deduplicate_articles_aux, h1, h2, hc]

/-- Witness for C2 at two concrete records sharing content but not url,
used both as the batch and as the collapsing pair. -/
theorem c2_witness :
    ((deduplicate_articles
        [{ content := "Same body text", article_url := "https://a.example/1" },
         { content := "Same body text", article_url := "https://a.example/2" }]).1.length +
      (deduplicate_articles
        [{ content := "Same body text", article_url := "https://a.example/1" },
         { content := "Same body text", article_url := "https://a.example/2" }]).2 =
      ([{ content := "Same body text", article_url := "https://a.example/1" },
        { content := "Same body text", article_url := "https://a.example/2" }] :
          List Article).length) ∧
    ((deduplicate_articles
        [{ content := "Same body text", article_url := "https://a.example/1" },
         { content := "Same body text", article_url := "https://a.example/2" }]).1.map
      (fun a => calculate_content_hash a.content)).Nodup ∧
    deduplicate_articles
        [{ content := "Same body text", article_url := "https://a.example/1" },
         { content := "Same body text", article_url := "https://a.example/2" }] =
      ([{ content := "Same body text", article_url := "https://a.example/1",
          content_hash := some (calculate_content_hash "Same body text") }], 1) :=
  c2_dedup_hash_keyed
    [{ content := "Same body text", article_url := "https://a.example/1" },
     { content := "Same body text", article_url := "https://a.example/2" }]
    { content := "Same body text", article_url := "https://a.example/1" }
    { content := "Same body text", article_url := "https://a.example/2" }
    (by decide) rfl (by decide) (by decide)

/-- C9: deduplication is idempotent — applied to its own first output it
returns the same record list and reports zero duplicates. -/
theorem c9_dedup_idempotent (articles : List Article) :
    deduplicate_articles (deduplicate_articles articles).1 =
      ((deduplicate_articles articles).1, 0) := by
  obtain ⟨h1, h2⟩ := dedup_aux_invariant articles []
  exact dedup_aux_fixed _ []
    (fun a ha => ⟨(h1 a ha).1, (h1 a ha).2.1, by simp⟩) h2

/-- C10: deduplication silently discards every record with empty (or
missing, modelled as empty) content: the kept records all have non-empty
content, kept-count plus duplicate_count equals the number of
non-empty-content input records, and on a batch containing an
empty-content record that sum is strictly below the input length. -/
theorem c10_dedup_drops_empty_content :
    (∀ articles : List Article,
        ((deduplicate_articles articles).1.length + (deduplicate_articles articles).2 =
          (articles.filter (fun a => a.content ≠ "")).length) ∧
        ∀ a ∈ (deduplicate_articles articles).1, a.content ≠ "") ∧
    (deduplicate_articles [({ content := "" } : Article)]).1.length +
        (deduplicate_articles [({ content := "" } : Article)]).2 <
      ([({ content := "" } : Article)]).length := by
  refine ⟨fun articles => ⟨dedup_aux_count articles [],
    fun a ha => ((dedup_aux_invariant articles []).1 a ha).1⟩, ?_⟩
  decide

/-! ## Per-article processing claims -/

/-- C4: a record with non-empty content scoring below the fixed
threshold 3 is finalized with processing_status = 'low_quality', the LLM
annotation call is never invoked for it, its content field is removed,
and quality_score, quality_factors, content_length, sentence_count and
tech_keyword_count are all retained. -/
theorem c4_low_quality_gate (a : Article) (llm : String → Option LlmResult)
    (hc : a.content ≠ "")
    (hq : (assess_content_quality a).quality_score < 3) :
    (process_single_article a llm).1.processing_status = some "low_quality" ∧
    (process_single_article a llm).2 = false ∧
    (process_single_article a llm).1.content = none ∧
    (process_single_article a llm).1.quality_score =
      some (assess_content_quality a).quality_score ∧
    (process_single_article a llm).1.quality_factors =
      some (assess_content_quality a).quality_factors ∧
    (process_single_article a llm).1.content_length =
      some (assess_content_quality a).content_length ∧
    (process_single_article a llm).1.sentence_count =
      some (assess_content_quality a).sentence_count ∧
    (process_single_article a llm).1.tech_keyword_count =
      some (assess_content_quality a).tech_keyword_count := by
  simp [process_single_article, hc, hq]

/-- Witness for C4 at a concrete short record, with an LLM oracle that
would even succeed — it is still not consulted. -/
theorem c4_witness :
    (process_single_article ({ content := "x" } : Article)
        (fun _ => some ⟨"利好", "s", "是"⟩)).1.processing_status = some "low_quality" ∧
    (process_single_article ({ content := "x" } : Article)
        (fun _ => some ⟨"利好", "s", "是"⟩)).2 = false ∧
    (process_single_article ({ content := "x" } : Article)
        (fun _ => some ⟨"利好", "s", "是"⟩)).1.content = none ∧
    (process_single_article ({ content := "x" } : Article)
        (fun _ => some ⟨"利好", "s", "是"⟩)).1.quality_score =
      some (assess_content_quality ({ content := "x" } : Article)).quality_score ∧
    (process_single_article ({ content := "x" } : Article)
        (fun _ => some ⟨"利好", "s", "是"⟩)).1.quality_factors =
      some (assess_content_quality ({ content := "x" } : Article)).quality_factors ∧
    (process_single_article ({ content := "x" } : Article)
        (fun _ => some ⟨"利好", "s", "是"⟩)).1.content_length =
      some (assess_content_quality ({ content := "x" } : Article)).content_length ∧
    (process_single_article ({ content := "x" } : Article)
        (fun _ => some ⟨"利好", "s", "是"⟩)).1.sentence_count =
      some (assess_content_quality ({ content := "x" } : Article)).sentence_count ∧
    (process_single_article ({ content := "x" } : Article)
        (fun _ => some ⟨"利好", "s", "是"⟩)).1.tech_keyword_count =
      some (assess_content_quality ({ content := "x" } : Article)).tech_keyword_count :=
  c4_low_quality_gate ({ content := "x" } : Article)
    (fun _ => some ⟨"利好", "s", "是"⟩) (by decide) (by decide)

/-- C8 counterexample: contrary to the claim that the record is rejected
before quality scoring is applied, the code runs `assess_content_quality`
first even for empty content — the finalized 'no_content' record carries
the quality-scoring fields (here quality_score is present, not absent). -/
theorem c8_counterexample :
    (process_single_article ({ content := "" } : Article)
        (fun _ => none)).1.processing_status = some "no_content" ∧
    (process_single_article ({ content := "" } : Article)
        (fun _ => none)).1.quality_score ≠ none := by
  decide

/-- C8 amended: for a record with empty content, processing finalizes it
with processing_status = 'no_content' and never invokes the LLM, but
quality scoring is applied first (its fields are attached to the output)
and the content field is not removed. -/
theorem c8_amended_no_content (a : Article) (llm : String → Option LlmResult)
    (hc : a.content = "") :
    (process_single_article a llm).1.processing_status = some "no_content" ∧
    (process_single_article a llm).2 = false ∧
    (process_single_article a llm).1.sentiment = some "中立" ∧
    (process_single_article a llm).1.summary = some "无内容可供分析" ∧
    (process_single_article a llm).1.relevant = some "否" ∧
    (process_single_article a llm).1.quality_score =
      some (assess_content_quality a).quality_score ∧
    (process_single_article a llm).1.content = some a.content := by
  simp [process_single_article, hc]

/-- Witness for the amended C8 at a concrete empty-content record. -/
theorem c8_witness :
    (process_single_article ({ content := "" } : Article)
        (fun _ => none)).1.processing_status = some "no_content" ∧
    (process_single_article ({ content := "" } : Article)
        (fun _ => none)).2 = false ∧
    (process_single_article ({ content := "" } : Article)
        (fun _ => none)).1.sentiment = some "中立" ∧
    (process_single_article ({ content := "" } : Article)
        (fun _ => none)).1.summary = some "无内容可供分析" ∧
    (process_single_article ({ content := "" } : Article)
        (fun _ => none)).1.relevant = some "否" ∧
    (process_single_article ({ content := "" } : Article)
        (fun _ => none)).1.quality_score =
      some (assess_content_quality ({ content := "" } : Article)).quality_score ∧
    (process_single_article ({ content := "" } : Article)
        (fun _ => none)).1.content = some ({ content := "" } : Article).content :=
  c8_amended_no_content ({ content := "" } : Article) (fun _ => none) rfl

/-- C5: an empty response body makes `call_llm` return failure after
exactly one attempt — no retry is made whatever `max_retries` is — and
the article is then finalized with processing_status = 'failed', the
fixed neutral fallback sentiment/summary/relevant, and its content field
removed. -/
theorem c5_empty_body_terminal_failure (interpret : String → BodyOutcome)
    (outcomes : Nat → AttemptOutcome) (k : Nat) (body : String) (a : Article)
    (h0 : outcomes 0 = AttemptOutcome.delivered body)
    (hb : pyStrip body = "")
    (hc : a.content ≠ "")
    (hq : 3 ≤ (assess_content_quality a).quality_score) :
    call_llm interpret outcomes (k + 1) = (none, 1) ∧
    (process_single_article a
        (fun _ => (call_llm interpret outcomes (k + 1)).1)).1.processing_status =
      some "failed" ∧
    (process_single_article a
        (fun _ => (call_llm interpret outcomes (k + 1)).1)).1.sentiment = some "中立" ∧
    (process_single_article a
        (fun _ => (call_llm interpret outcomes (k + 1)).1)).1.summary = some "LLM分析失败" ∧
    (process_single_article a
        (fun _ => (call_llm interpret outcomes (k + 1)).1)).1.relevant = some "否" ∧
    (process_single_article a
        (fun _ => (call_llm interpret outcomes (k + 1)).1)).1.content = none := by
  have h1 : call_llm interpret outcomes (k + 1) = (none, 1) := by
    simp [call_llm, call_llm_loop, h0, hb]
  have hq' : ¬ (assess_content_quality a).quality_score < 3 := by omega
  refine ⟨h1, ?_, ?_, ?_, ?_, ?_⟩ <;>
    simp [process_single_article, hc, hq', h1]

/-- Witness for C5: body `""` delivered on the first attempt, with
`max_retries = 2` and an interpret function that would keep the loop
going on malformed output — still exactly one attempt is consumed. -/
theorem c5_witness :
    call_llm (fun _ => BodyOutcome.invalid) (fun _ => AttemptOutcome.delivered "") (1 + 1) =
      (none, 1) ∧
    (process_single_article
        ({ content := "chip wafer silicon. b. c. d. e. f." } : Article)
        (fun _ => (call_llm (fun _ => BodyOutcome.invalid)
          (fun _ => AttemptOutcome.delivered "") (1 + 1)).1)).1.processing_status =
      some "failed" ∧
    (process_single_article
        ({ content := "chip wafer silicon. b. c. d. e. f." } : Article)
        (fun _ => (call_llm (fun _ => BodyOutcome.invalid)
          (fun _ => AttemptOutcome.delivered "") (1 + 1)).1)).1.sentiment = some "中立" ∧
    (process_single_article
        ({ content := "chip wafer silicon. b. c. d. e. f." } : Article)
        (fun _ => (call_llm (fun _ => BodyOutcome.invalid)
          (fun _ => AttemptOutcome.delivered "") (1 + 1)).1)).1.summary = some "LLM分析失败" ∧
    (process_single_article
        ({ content := "chip wafer silicon. b. c. d. e. f." } : Article)
        (fun _ => (call_llm (fun _ => BodyOutcome.invalid)
          (fun _ => AttemptOutcome.delivered "") (1 + 1)).1)).1.relevant = some "否" ∧
    (process_single_article
        ({ content := "chip wafer silicon. b. c. d. e. f." } : Article)
        (fun _ => (call_llm (fun _ => BodyOutcome.invalid)
          (fun _ => AttemptOutcome.delivered "") (1 + 1)).1)).1.content = none :=
  c5_empty_body_terminal_failure (fun _ => BodyOutcome.invalid)
    (fun _ => AttemptOutcome.delivered "") 1 ""
    ({ content := "chip wafer silicon. b. c. d. e. f." } : Article)
    rfl rfl (by decide) (by decide)

/-! ## Orchestrator claims -/

lemma collectForSource_length_le (B : BackendSet) (url : String) (n : Nat) :
    (collectForSource B url n).1.length ≤ n := by
  simp [collectForSource]

/-- C3: whatever the three backends return, the orchestrator's
aggregated output contains at most `n` records for a source requested
with quota `n` — each `(url, n)` pair's contribution to `all_events` has
length at most `n`. -/
theorem c3_per_source_quota (B : BackendSet) (sources : List (String × Nat)) :
    ∀ p ∈ sources.zip (aggregateSources B sources), p.2.length ≤ p.1.2 := by
  induction sources with
  | nil => intro p hp; simp [aggregateSources] at hp
  | cons s rest ih =>
    intro p hp
    simp only [aggregateSources, List.map_cons, List.zip_cons_cons] at hp
    rcases List.mem_cons.mp hp with h | h
    · subst h; exact collectForSource_length_le B s.1 s.2
    · exact ih p (by simpa [aggregateSources] using h)

/-- Witness for C3 with three concrete over/under-producing backends and
one requested source. -/
theorem c3_witness :
    ((("https://example.com", 1),
        (collectForSource
          ⟨fun _ _ => some [{ content := "c", headline := "h" }],
           fun _ _ => some [], fun _ _ => some []⟩ "https://example.com" 1).1) :
      (String × Nat) × List Article).2.length ≤ 1 :=
  c3_per_source_quota
    ⟨fun _ _ => some [{ content := "c", headline := "h" }],
     fun _ _ => some [], fun _ _ => some []⟩
    [("https://example.com", 1)]
    (("https://example.com", 1),
      (collectForSource
        ⟨fun _ _ => some [{ content := "c", headline := "h" }],
         fun _ _ => some [], fun _ _ => some []⟩ "https://example.com" 1).1)
    (by decide)

/-- C6 counterexample: with all three backends returning no usable
records and quota 1, the invocation trace is
`[trafilatura, htmlFallback, playwright]` — the saved-HTML fallback is
invoked second, at a point where the rendered-page (Playwright)
extractor has not yet been tried at all, contradicting the claim that it
runs only after both other strategies have failed. -/
theorem c6_counterexample :
    (collectForSource ⟨fun _ _ => some [], fun _ _ => some [], fun _ _ => some []⟩
        "https://example.com" 1).2 =
      [BackendTag.trafilatura, BackendTag.htmlFallback, BackendTag.playwright] ∧
    BackendTag.htmlFallback ∈
      (collectForSource ⟨fun _ _ => some [], fun _ _ => some [], fun _ _ => some []⟩
        "https://example.com" 1).2 ∧
    ¬ ((collectForSource ⟨fun _ _ => some [], fun _ _ => some [], fun _ _ => some []⟩
          "https://example.com" 1).2.indexOf BackendTag.playwright <
        (collectForSource ⟨fun _ _ => some [], fun _ _ => some [], fun _ _ => some []⟩
          "https://example.com" 1).2.indexOf BackendTag.htmlFallback) := by
  decide

/-- C6 amended: the backend order is static (trafilatura) → saved-HTML
fallback → rendered-page (Playwright).  The saved-HTML fallback is
invoked exactly when the static extractor alone has failed to meet the
source's quota, and the rendered-page extractor — not the saved-HTML
fallback — is the one invoked only after both other strategies have
failed to meet the quota; the static extractor is always invoked. -/
theorem c6_amended_fallback_order (B : BackendSet) (url : String) (n : Nat) :
    (BackendTag.htmlFallback ∈ (collectForSource B url n).2 ↔
      (phase1 B url n).length < n) ∧
    (BackendTag.playwright ∈ (collectForSource B url n).2 ↔
      (phase2 B url n).length < n) ∧
    BackendTag.trafilatura ∈ (collectForSource B url n).2 := by
  refine ⟨?_, ?_, ?_⟩ <;>
    simp only [collectForSource, backendTrace] <;> split_ifs <;> simp_all

/-! ## Date resolution claims -/

lemma firstNonEmptyDate_raw (l : List String) :
    firstNonEmptyDate l = "" ∨ firstNonEmptyDate l ∈ l := by
  induction l with
  | nil => exact Or.inl rfl
  | cons d rest ih =>
    by_cases h : d.isEmpty
    · rcases ih with h' | h'
      · exact Or.inl (by simp [firstNonEmptyDate, h, h'])
      · refine Or.inr ?_
        simp only [firstNonEmptyDate, h, if_true]
        exact List.mem_cons_of_mem _ h'
    · exact Or.inr (by simp [firstNonEmptyDate, h])

/-- C7 counterexample: in the rendered-page extractor the orchestrator
actually uses (`PlaywrightCrawler.extract_articles`), a resolved ISO
date string is NOT rewritten to `MM.DD.YYYY`: it is passed through
unchanged, unlike what the claimed normalization cascade (implemented
only in `PlaywrightNewsScraper`) would produce. -/
theorem c7_counterexample :
    crawlerResolveDate "" ["2024-01-02"] = "2024-01-02" ∧
    normalizeDate "2024-01-02" = "01.02.2024" ∧
    crawlerResolveDate "" ["2024-01-02"] ≠ normalizeDate "2024-01-02" := by
  decide

/-- C7 amended: the normalization cascade exists only in
`PlaywrightNewsScraper` (playwright_scraper.py), where it tries the
patterns in the claimed fixed priority order — `MM.DD.YYYY` kept
unchanged, else `MM.DD.YY` widened to `MM.DD.20YY`, else ISO
`YYYY-MM-DD` rewritten to `MM.DD.YYYY`, else pass-through — while the
`PlaywrightCrawler` used by the orchestrator
(crawlers/playwright_crawler.py) resolves the first non-empty selector
hit and passes every resolved raw date string through unchanged. -/
theorem c7_amended_date_normalization :
    (∀ s : String, isMMDDYYYY s.data = true → normalizeDate s = s) ∧
    (∀ (s : String) (m1 m2 d1 d2 y1 y2 : Char), isMMDDYYYY s.data = false →
        matchMMDDYY s.data = some (m1, m2, d1, d2, y1, y2) →
        normalizeDate s = ⟨[m1, m2, '.', d1, d2, '.', '2', '0', y1, y2]⟩) ∧
    (∀ (s : String) (y1 y2 y3 y4 m1 m2 d1 d2 : Char), isMMDDYYYY s.data = false →
        matchMMDDYY s.data = none →
        matchISO s.data = some (y1, y2, y3, y4, m1, m2, d1, d2) →
        normalizeDate s = ⟨[m1, m2, '.', d1, d2, '.', y1, y2, y3, y4]⟩) ∧
    (∀ s : String, isMMDDYYYY s.data = false → matchMMDDYY s.data = none →
        matchISO s.data = none → normalizeDate s = s) ∧
    (∀ (listing : String) (cands : List String),
        crawlerResolveDate listing cands = listing ∨
        crawlerResolveDate listing cands ∈ cands) ∧
    (∀ span : String, span.isEmpty = false →
        scraperResolveDate "" span = normalizeDate span) := by
  refine ⟨?_, ?_, ?_, ?_, ?_, ?_⟩
  · intro s h
    simp [normalizeDate, normalizeDateChars, h]
  · intro s m1 m2 d1 d2 y1 y2 h1 h2
    simp [normalizeDate, normalizeDateChars, h1, h2]
  · intro s y1 y2 y3 y4 m1 m2 d1 d2 h1 h2 h3
    simp [normalizeDate, normalizeDateChars, h1, h2, h3]
  · intro s h1 h2 h3
    simp [normalizeDate, normalizeDateChars, h1, h2, h3]
  · intro listing cands
    by_cases h : listing.isEmpty
    · rcases firstNonEmptyDate_raw cands with h' | h'
      · refine Or.inl ?_
        rw [crawlerResolveDate, if_pos h, h', (String.isEmpty_iff listing).mp h]
      · refine Or.inr ?_
        rw [crawlerResolveDate, if_pos h]
        exact h'
    · exact Or.inl (by rw [crawlerResolveDate, if_neg h])
  · intro span h
    have h0 : ("" : String).isEmpty = true := rfl
    simp [scraperResolveDate, h, h0]

/-- Witness for the amended C7: the two-digit-year pattern at a concrete
date, widened to `20YY`. -/
theorem c7_witness : normalizeDate "01.02.25" = "01.02.2025" :=
  c7_amended_date_normalization.2.1 "01.02.25" '0' '1' '0' '2' '2' '5'
    (by decide) (by decide)

end AutoCrawler
